import Mathlib

/-!
Verification of the S3 assetstore adapter
(`girder/utility/s3_assetstore_adapter.py`).

The adapter validates assetstore configuration documents and builds
HMAC-SHA1-signed request descriptors that authorize a client to upload
directly to S3.  This file shallowly embeds the adapter's data model and
operations and proves the specified properties about them.

Modelling conventions:
* Python dictionaries become Lean structures; the `prefix` key of the
  config document is modelled as the `keyPrefix` field (`prefix` is a
  Lean keyword).
* A missing `prefix` key is `none` (the source inserts `''` when the key
  is absent).
* Exceptions become `Except` results; `boto`'s write probe, the only
  network side effect, is passed in as a function from the (normalized)
  document to a result, so that `except:` over the probe is explicit.
* Byte strings are `List Nat` with every element `< 256`; machine words
  are `Nat` reduced `% 2 ^ 32` where overflow matters.
* Python's dynamic typing is modelled exactly where `initUpload` trips
  over it: `uuid.uuid4()` returns a `uuid.UUID` object, which is not
  subscriptable, so `uid[0:2]` raises `TypeError`; and the message
  tuples hold both strings and the raw integer `expires`, so
  `'\n'.join(msg)` raises `TypeError` as well.  These operations return
  `Except PyErr` and short-circuit exactly where Python raises.
-/

/-- The girder exception values raised by the adapter:
`ValidationException(message, field)` from `girder.models.model_base`,
and the bare `Exception(message)` raised by `requestOffset`. -/
inductive GirderExc where
  | validationException (msg : String) (field : String)
  | exception (msg : String)
deriving DecidableEq, Repr

/-- The assetstore configuration document handled by `validateInfo`
(keys `prefix`, `bucket`, `secret`, `accessKeyId`).  The `prefix` key
may be absent (`none`); the remaining keys are modelled as strings,
where the empty string is Python-falsy exactly as `not doc.get(k)`. -/
structure S3Doc where
  keyPrefix : Option String
  bucket : String
  secret : String
  accessKeyId : String
deriving DecidableEq, Repr

/-- One step of `while len(p) and p[0] == '/': p = p[1:]` on the list of
characters: drop leading slash characters. -/
def dropLeadSlashes : List Char → List Char
  | [] => []
  | c :: cs => if c = '/' then dropLeadSlashes cs else c :: cs

/-- `while len(p) and p[-1] == '/': p = p[:-1]`: drop trailing slash
characters, rendered functionally by stripping leading slashes of the
reversed list. -/
def dropTrailSlashes (l : List Char) : List Char :=
  (dropLeadSlashes l.reverse).reverse

/-- The `prefix` normalization performed at the top of `validateInfo`:
strip leading slashes, then trailing slashes. -/
def stripSlashes (s : String) : String :=
  ⟨dropTrailSlashes (dropLeadSlashes s.data)⟩

/-- The document after the in-place mutations of `validateInfo`'s first
four lines: the `prefix` key is present and slash-stripped. -/
def normalizeDoc (doc : S3Doc) : S3Doc :=
  { doc with keyPrefix := some (stripSlashes (doc.keyPrefix.getD "")) }

/-- `S3AssetstoreAdapter.validateInfo`.  Normalizes the prefix, checks
`bucket`, `secret` and `accessKeyId` for emptiness (in that order,
raising a field-scoped `ValidationException`), then runs the boto write
probe on the normalized document; any probe failure is caught and
re-raised as a `ValidationException` on field `bucket`. -/
def validateInfo (probe : S3Doc → Except String Unit) (doc : S3Doc) :
    Except GirderExc S3Doc :=
  let d := normalizeDoc doc
  if d.bucket = "" then
    .error (.validationException "Bucket must not be empty." "bucket")
  else if d.secret = "" then
    .error (.validationException "Secret key must not be empty." "secretKey")
  else if d.accessKeyId = "" then
    .error (.validationException "Access key ID must not be empty." "accessKeyId")
  else
    match probe d with
    | .ok _ => .ok d
    | .error _ =>
        .error (.validationException
          ("Unable to write into bucket \"" ++ d.bucket ++ "\".") "bucket")

/-! ### Decimal rendering

Python interpolates the integer `expires` into the canonical message and
the `Date` header; `natToDec` is `str` on a non-negative integer. -/

/-- Decimal digits of `n`, least significant first; `fuel` bounds the
recursion (any `fuel > 0` with `fuel ≥ n` suffices, and callers pass
`n + 1`). -/
def decDigitsRev : Nat → Nat → List Char
  | 0, _ => []
  | fuel + 1, n =>
    if n < 10 then [Nat.digitChar n]
    else Nat.digitChar (n % 10) :: decDigitsRev fuel (n / 10)

/-- Python `str` of a non-negative integer: usual decimal notation. -/
def natToDec (n : Nat) : String := ⟨(decDigitsRev (n + 1) n).reverse⟩

/-! ### Python dynamic typing where `initUpload` depends on it

`initUpload` applies string operations to non-string values in two
places, and both raise `TypeError` at run time (identically under
Python 2 and 3): `uuid.uuid4()` yields a `uuid.UUID` object, which has
no `__getitem__`, so the slice `uid[0:2]` at line 89 raises; and the
message tuples of lines 105/122 hold the raw integer `expires`, which
makes `'\n'.join(msg)` raise.  -/

/-- Python-level exceptions raised by the adapter's own expressions. -/
inductive PyErr where
  | typeError (msg : String)
deriving DecidableEq, Repr

/-- The object returned by `uuid.uuid4()`: a `uuid.UUID` instance
carrying the 128-bit value (shown here as its 32 hex digits).  The
object is not a string and supports neither slicing nor `str.join`
without an explicit `str()` call. -/
structure PyUUID where
  hex : String
deriving DecidableEq, Repr

/-- Python subscripting `u[i:j]` on a `uuid.UUID` object: `UUID`
defines no `__getitem__`, so every subscript raises `TypeError`. -/
def PyUUID.slice (_u : PyUUID) (_i _j : Nat) : Except PyErr String :=
  .error (.typeError "'UUID' object is not subscriptable")

/-- A Python value as it appears in the tuples `initUpload` builds:
a string, the raw integer `expires`, or the `uuid.UUID` object. -/
inductive PyVal where
  | str (s : String)
  | int (n : Nat)
  | uuidObj (u : PyUUID)
deriving DecidableEq, Repr

/-- The item scan of `str.join`: every item must already be a string;
the first non-string item (0-based index `i`) raises `TypeError`
exactly as Python 2's `str.join` does. -/
def strJoinItems : Nat → List PyVal → Except PyErr (List String)
  | _, [] => .ok []
  | i, .str s :: rest => do
      let ss ← strJoinItems (i + 1) rest
      pure (s :: ss)
  | i, .int _ :: _ =>
      .error (.typeError
        ("sequence item " ++ natToDec i ++ ": expected string, int found"))
  | i, .uuidObj _ :: _ =>
      .error (.typeError
        ("sequence item " ++ natToDec i ++ ": expected string, UUID found"))

/-- `sep.join(items)` on a tuple of Python values. -/
def strJoin (sep : String) (items : List PyVal) : Except PyErr String := do
  let ss ← strJoinItems 0 items
  pure (String.intercalate sep ss)

/-! ### SHA-1, HMAC-SHA1 and base64 (`hashlib.sha1`, `hmac`, `base64`)

Bytes are `Nat`s below `256`; 32-bit words are `Nat`s reduced modulo
`2 ^ 32`. -/

/-- Truncate to a 32-bit word. -/
def w32 (n : Nat) : Nat := n % 4294967296

/-- Rotate a 32-bit word left by `n` bits. -/
def rotl (n x : Nat) : Nat := w32 ((x <<< n) ||| (x >>> (32 - n)))

/-- Big-endian 32-bit words of a byte list (length a multiple of 4). -/
def wordsOfBytes : List Nat → List Nat
  | b0 :: b1 :: b2 :: b3 :: rest =>
      (((b0 * 256 + b1) * 256 + b2) * 256 + b3) :: wordsOfBytes rest
  | _ => []

/-- Big-endian bytes of a 32-bit word. -/
def bytesOfWord (x : Nat) : List Nat :=
  [x / 16777216 % 256, x / 65536 % 256, x / 256 % 256, x % 256]

/-- Big-endian 8-byte encoding of a 64-bit length. -/
def bytesOfLen64 (n : Nat) : List Nat :=
  [n >>> 56 % 256, n >>> 48 % 256, n >>> 40 % 256, n >>> 32 % 256,
   n >>> 24 % 256, n >>> 16 % 256, n >>> 8 % 256, n % 256]

/-- Extend a 16-word message schedule by `k` further words, each
`rotl 1` of the xor of the words 3, 8, 14 and 16 positions back. -/
def extendWords : Nat → List Nat → List Nat
  | 0, w => w
  | k + 1, w =>
      let n := w.length
      extendWords k (w ++
        [rotl 1 (w.getD (n - 3) 0 ^^^ w.getD (n - 8) 0 ^^^
                 w.getD (n - 14) 0 ^^^ w.getD (n - 16) 0)])

/-- The SHA-1 round function for round `i`. -/
def sha1F (i b c d : Nat) : Nat :=
  if i < 20 then (b &&& c) ||| ((b ^^^ 4294967295) &&& d)
  else if i < 40 then b ^^^ c ^^^ d
  else if i < 60 then (b &&& c) ||| (b &&& d) ||| (c &&& d)
  else b ^^^ c ^^^ d

/-- The SHA-1 round constant for round `i`. -/
def sha1K (i : Nat) : Nat :=
  if i < 20 then 0x5A827999
  else if i < 40 then 0x6ED9EBA1
  else if i < 60 then 0x8F1BBCDC
  else 0xCA62C1D6

/-- Run the 80 SHA-1 rounds over the message schedule `ws`, starting at
round index `i` with working state `(a, b, c, d, e)`. -/
def sha1Rounds : Nat → List Nat → Nat × Nat × Nat × Nat × Nat →
    Nat × Nat × Nat × Nat × Nat
  | _, [], st => st
  | i, w :: ws, (a, b, c, d, e) =>
      let t := w32 (rotl 5 a + sha1F i b c d + e + sha1K i + w)
      sha1Rounds (i + 1) ws (t, a, rotl 30 b, c, d)

/-- Compress one 64-byte block into the hash state. -/
def sha1Block (h : Nat × Nat × Nat × Nat × Nat) (block : List Nat) :
    Nat × Nat × Nat × Nat × Nat :=
  let ws := extendWords 64 (wordsOfBytes block)
  let (h0, h1, h2, h3, h4) := h
  let (a, b, c, d, e) := sha1Rounds 0 ws h
  (w32 (h0 + a), w32 (h1 + b), w32 (h2 + c), w32 (h3 + d), w32 (h4 + e))

/-- Fold `sha1Block` over consecutive 64-byte blocks; `fuel` bounds the
recursion (any `fuel ≥ length` suffices). -/
def sha1Chunks : Nat → List Nat → Nat × Nat × Nat × Nat × Nat →
    Nat × Nat × Nat × Nat × Nat
  | 0, _, h => h
  | fuel + 1, bytes, h =>
      match bytes with
      | [] => h
      | _ => sha1Chunks fuel (bytes.drop 64) (sha1Block h (bytes.take 64))

/-- SHA-1 padding: a `0x80` byte, zeros to 56 mod 64, and the bit length
as a big-endian 64-bit integer. -/
def sha1Pad (msg : List Nat) : List Nat :=
  let r := (msg.length + 1) % 64
  msg ++ [128] ++ List.replicate ((120 - r) % 64) 0 ++
    bytesOfLen64 (msg.length * 8 % 18446744073709551616)

/-- SHA-1 of a byte list, as the 20-byte digest. -/
def sha1 (msg : List Nat) : List Nat :=
  let padded := sha1Pad msg
  let (h0, h1, h2, h3, h4) :=
    sha1Chunks padded.length padded
      (0x67452301, 0xEFCDAB89, 0x98BADCFE, 0x10325476, 0xC3D2E1F0)
  bytesOfWord h0 ++ bytesOfWord h1 ++ bytesOfWord h2 ++
    bytesOfWord h3 ++ bytesOfWord h4

/-- `hmac.new(key, msg, hashlib.sha1).digest()`: HMAC-SHA1 with a
64-byte block size. -/
def hmacSha1 (key msg : List Nat) : List Nat :=
  let k0 := if key.length > 64 then sha1 key else key
  let k := k0 ++ List.replicate (64 - k0.length) 0
  sha1 ((k.map (fun b => b ^^^ 92)) ++ sha1 ((k.map (fun b => b ^^^ 54)) ++ msg))

/-- The base64 alphabet. -/
def b64Alphabet : List Char :=
  "ABCDEFGHIJKLMNOPQRSTUVWXYZabcdefghijklmnopqrstuvwxyz0123456789+/".data

/-- The base64 character for a 6-bit value. -/
def b64Char (n : Nat) : Char := b64Alphabet.getD n '?'

/-- Base64-encode a byte list, three bytes to four characters, padding
with `=`. -/
def base64Chars : List Nat → List Char
  | [] => []
  | [a] => [b64Char (a / 4), b64Char (a % 4 * 16), '=', '=']
  | [a, b] => [b64Char (a / 4), b64Char (a % 4 * 16 + b / 16),
               b64Char (b % 16 * 4), '=']
  | a :: b :: c :: rest =>
      b64Char (a / 4) :: b64Char (a % 4 * 16 + b / 16) ::
        b64Char (b % 16 * 4 + c / 64) :: b64Char (c % 64) ::
        base64Chars rest

/-- `base64.b64encode` of a byte list, as a string. -/
def base64Encode (bs : List Nat) : String := ⟨base64Chars bs⟩

/-- The bytes of an ASCII string (Python 2 `str` is a byte string; every
string the adapter signs is ASCII). -/
def strBytes (s : String) : List Nat := s.data.map Char.toNat

/-! ### The upload data model and `initUpload` -/

/-- The headers dict of the signed request: `Authorization`, `Date` (the
source stores the raw integer `expires` there), and `x-amz-acl`. -/
structure S3Headers where
  authorization : String
  date : Nat
  xAmzAcl : String
deriving DecidableEq, Repr

/-- The `request` dict placed under `upload['s3']`. -/
structure S3Request where
  method : String
  url : String
  headers : S3Headers
deriving DecidableEq, Repr

/-- The `upload['s3']` dict: the chunked flag and chunk length are set
at lines 99-102; the `request` key is only added later (line 111 or
127), so it is optional here. -/
structure S3Ext where
  chunked : Bool
  chunkLength : Nat
  request : Option S3Request
deriving DecidableEq, Repr

/-- An upload document.  `size`, `mimeType` and `name` come from the
caller; `behavior` and `s3` are the keys `initUpload` writes (absent,
i.e. `none`, on entry). -/
structure Upload where
  size : Nat
  mimeType : String
  name : String
  behavior : Option String
  s3 : Option S3Ext
deriving DecidableEq, Repr

/-- `S3AssetstoreAdapter.CHUNK_LEN`. -/
def CHUNK_LEN : Nat := 1024 * 1024 * 64

/-- `S3AssetstoreAdapter.HMAC_TTL` (seconds a signed message stays
valid). -/
def HMAC_TTL : Nat := 120

/-- Line 89, `key = '/'.join((uid[0:2], uid[2:4], uid))`, with `uid`
the `uuid.UUID` object returned by `uuid.uuid4()` at line 88.  Python
evaluates the tuple left to right, so the slice `uid[0:2]` raises
`TypeError` first; the join itself would raise too (its last item is
the `UUID` object).  No object key is ever produced. -/
def objectKey (uid : PyUUID) : Except PyErr String := do
  let a ← uid.slice 0 2
  let b ← uid.slice 2 4
  strJoin "/" [.str a, .str b, .uuidObj uid]

/-- `headers = '\n'.join(('x-amz-acl: private',))`: the block of
headers included in the canonical message (a join of string items, so
it succeeds). -/
def signedHeaderBlock : String := "x-amz-acl: private"

/-- The message tuple of line 105 / line 122,
`(method, '', contentType, expires, headers, resource)`, fed to
`'\n'.join(msg)` at line 109 / line 124.  The expiry slot holds the raw
integer `expires` (no `str()` is applied), so the join raises
`TypeError` on sequence item 3 for every input. -/
def canonicalMessage (method contentType : String) (expires : Nat)
    (headerBlock resource : String) : Except PyErr String :=
  strJoin "\n" [.str method, .str "", .str contentType, .int expires,
    .str headerBlock, .str resource]

/-- `base64.b64encode(hmac.new(secret, msg, hashlib.sha1).digest())`:
the signature over the canonical message. -/
def sign (secret msg : String) : String :=
  base64Encode (hmacSha1 (strBytes secret) (strBytes msg))

/-- `'AWS {}:{}'.format(accessKeyId, signature)`: the Authorization
header value. -/
def authHeader (accessKeyId signature : String) : String :=
  "AWS " ++ accessKeyId ++ ":" ++ signature

/-- `S3AssetstoreAdapter.initUpload` (lines 84-138), in Python's
statement order.  The fresh `uuid.uuid4()` object and the wall clock
reading (`time.time()`, epoch seconds) are explicit parameters `uid`
and `now`.  Every call short-circuits at line 89: the slice of the
`uuid.UUID` object raises `TypeError` before the upload dict is
touched, the chunk decision is taken, or anything is signed.  The
remainder of the body transcribes lines 90-138 (themselves doomed at
the `'\n'.join(msg)` of the message tuples) and is unreachable. -/
def initUpload (store : S3Doc) (upload : Upload) (uid : PyUUID)
    (now : Nat) : Except PyErr Upload := do
  let key ← objectKey uid
  let path := "/" ++ store.bucket ++ "/" ++ key
  let headerBlock := signedHeaderBlock
  let url := "https://" ++ store.bucket ++ ".s3.amazonaws.com/" ++ key
  let chunked : Bool := upload.size > CHUNK_LEN
  let expires := now + HMAC_TTL
  let upload := { upload with
    behavior := some "s3",
    s3 := some
      { chunked := chunked, chunkLength := CHUNK_LEN, request := none } }
  if chunked then
    let msg ← canonicalMessage "POST" "" expires headerBlock
      (path ++ "?uploads")
    let url := url ++ "?uploads"
    let signature := sign store.secret msg
    pure { upload with
      s3 := some
        { chunked := chunked, chunkLength := CHUNK_LEN,
          request := some
            { method := "POST", url := url,
              headers :=
                { authorization := authHeader store.accessKeyId signature,
                  date := expires, xAmzAcl := "private" } } } }
  else
    let msg ← canonicalMessage "PUT" upload.mimeType expires headerBlock path
    let signature := sign store.secret msg
    pure { upload with
      s3 := some
        { chunked := chunked, chunkLength := CHUNK_LEN,
          request := some
            { method := "PUT", url := url,
              headers :=
                { authorization := authHeader store.accessKeyId signature,
                  date := expires, xAmzAcl := "private" } } } }

/-- `S3AssetstoreAdapter.requestOffset`: unconditionally raises
`Exception('S3 assetstore does not support requestOffset.')`. -/
def requestOffset (_upload : Upload) : Except GirderExc Nat :=
  .error (.exception "S3 assetstore does not support requestOffset.")

/-- A string free of leading and trailing path separators. -/
def noSep (s : String) : Prop :=
  s.data.head? ≠ some '/' ∧ s.data.getLast? ≠ some '/'

instance (s : String) : Decidable (noSep s) := by
  unfold noSep; infer_instance

/-! ### Lemmas about slash stripping -/

lemma head?_dropLeadSlashes (l : List Char) :
    (dropLeadSlashes l).head? ≠ some '/' := by
  induction l with
  | nil => simp [dropLeadSlashes]
  | cons c cs ih =>
      by_cases hc : c = '/'
      · simpa [dropLeadSlashes, hc] using ih
      · simp [dropLeadSlashes, hc]

lemma dropLeadSlashes_of_head (l : List Char) (h : l.head? ≠ some '/') :
    dropLeadSlashes l = l := by
  cases l with
  | nil => rfl
  | cons c cs =>
      have hc : c ≠ '/' := by simpa using h
      simp [dropLeadSlashes, hc]

lemma dropLeadSlashes_nil : dropLeadSlashes [] = [] := rfl

lemma getLast?_dropLeadSlashes (l : List Char)
    (h : dropLeadSlashes l ≠ []) :
    (dropLeadSlashes l).getLast? = l.getLast? := by
  induction l with
  | nil => simp [dropLeadSlashes] at h
  | cons c cs ih =>
      by_cases hc : c = '/'
      · have h' : dropLeadSlashes cs ≠ [] := by
          simpa [dropLeadSlashes, hc] using h
        have hcs : cs ≠ [] := by
          intro hn; rw [hn] at h'; exact h' rfl
        rw [show dropLeadSlashes (c :: cs) = dropLeadSlashes cs by
              simp [dropLeadSlashes, hc],
            ih h']
        cases cs with
        | nil => exact absurd rfl hcs
        | cons d ds => simp [List.getLast?_cons_cons]
      · simp [dropLeadSlashes, hc]

lemma noSep_stripSlashes (s : String) : noSep (stripSlashes s) := by
  constructor
  · show (dropTrailSlashes (dropLeadSlashes s.data)).head? ≠ some '/'
    unfold dropTrailSlashes
    rw [List.head?_reverse]
    by_cases h : dropLeadSlashes (dropLeadSlashes s.data).reverse = []
    · simp [h]
    · rw [getLast?_dropLeadSlashes _ h, List.getLast?_reverse]
      exact head?_dropLeadSlashes s.data
  · show (dropTrailSlashes (dropLeadSlashes s.data)).getLast? ≠ some '/'
    unfold dropTrailSlashes
    rw [List.getLast?_reverse]
    exact head?_dropLeadSlashes (dropLeadSlashes s.data).reverse

lemma stripSlashes_of_noSep (s : String) (h : noSep s) :
    stripSlashes s = s := by
  obtain ⟨h1, h2⟩ := h
  have e1 : dropLeadSlashes s.data = s.data := dropLeadSlashes_of_head _ h1
  have e2 : dropLeadSlashes s.data.reverse = s.data.reverse := by
    apply dropLeadSlashes_of_head
    rw [List.head?_reverse]
    exact h2
  cases s with
  | mk d =>
      show String.mk (dropTrailSlashes (dropLeadSlashes d)) = String.mk d
      unfold dropTrailSlashes
      rw [show dropLeadSlashes d = d from e1,
          show dropLeadSlashes d.reverse = d.reverse from e2,
          List.reverse_reverse]

lemma stripSlashes_idem (s : String) :
    stripSlashes (stripSlashes s) = stripSlashes s :=
  stripSlashes_of_noSep _ (noSep_stripSlashes s)

lemma normalizeDoc_idem (doc : S3Doc) :
    normalizeDoc (normalizeDoc doc) = normalizeDoc doc := by
  unfold normalizeDoc
  simp [stripSlashes_idem]

/-! ### Inversion of `validateInfo` -/

lemma validateInfo_ok_inv {probe : S3Doc → Except String Unit}
    {doc d : S3Doc} (h : validateInfo probe doc = .ok d) :
    d = normalizeDoc doc ∧ d.bucket ≠ "" ∧ d.secret ≠ "" ∧
      d.accessKeyId ≠ "" ∧ probe d = .ok () := by
  unfold validateInfo at h
  by_cases h1 : (normalizeDoc doc).bucket = ""
  · simp [h1] at h
  · by_cases h2 : (normalizeDoc doc).secret = ""
    · simp [h1, h2] at h
    · by_cases h3 : (normalizeDoc doc).accessKeyId = ""
      · simp [h1, h2, h3] at h
      · simp only [h1, h2, h3, if_false] at h
        cases hp : probe (normalizeDoc doc) with
        | ok u =>
            cases u
            rw [hp] at h
            simp only [Except.ok.injEq] at h
            subst h
            exact ⟨rfl, h1, h2, h3, hp⟩
        | error e =>
            rw [hp] at h
            simp at h

/-! ### Concrete inputs used by witnesses -/

/-- A concrete config document (the spec's scenario in §8). -/
def docWit : S3Doc :=
  { keyPrefix := some "/x/", bucket := "b", secret := "s", accessKeyId := "a" }

/-- `docWit` after normalization. -/
def docWitNorm : S3Doc :=
  { keyPrefix := some "x", bucket := "b", secret := "s", accessKeyId := "a" }

/-- A write probe that always succeeds. -/
def probeOk : S3Doc → Except String Unit := fun _ => .ok ()

/-- A write probe that always raises a provider-side error. -/
def probeDenied : S3Doc → Except String Unit := fun _ => .error "AccessDenied"

/-- The field of a `ValidationException` result, if any. -/
def errField : Except GirderExc S3Doc → Option String
  | .error (.validationException _ f) => some f
  | _ => none

/-! ### Claim theorems: configuration validation -/

/-- C4: for every config whose bucket, secret key and access key id are
non-empty, if the write probe raises any provider exception `e`,
`validateInfo` fails with a `ValidationException` whose field is
`"bucket"`; the result is the same for every `e`, so the provider error
never propagates to the caller. -/
theorem probe_failure_becomes_bucket_error
    (probe : S3Doc → Except String Unit) (doc : S3Doc) (e : String)
    (hb : doc.bucket ≠ "") (hs : doc.secret ≠ "") (ha : doc.accessKeyId ≠ "")
    (hp : probe (normalizeDoc doc) = .error e) :
    validateInfo probe doc =
      .error (.validationException
        ("Unable to write into bucket \"" ++ doc.bucket ++ "\".") "bucket") := by
  simp only [validateInfo]
  rw [show (normalizeDoc doc).bucket = doc.bucket from rfl,
      show (normalizeDoc doc).secret = doc.secret from rfl,
      show (normalizeDoc doc).accessKeyId = doc.accessKeyId from rfl,
      if_neg hb, if_neg hs, if_neg ha, hp]

theorem probe_failure_becomes_bucket_error_witness :
    validateInfo probeDenied docWit =
      .error (.validationException
        "Unable to write into bucket \"b\"." "bucket") := by
  exact probe_failure_becomes_bucket_error probeDenied docWit "AccessDenied"
    (by decide) (by decide) (by decide) rfl

/-- C5 (amended): the emptiness checks are ordered.  An empty bucket is
reported on field `"bucket"` whatever the other fields hold; an empty
secret key is reported on `"secretKey"` when the bucket is non-empty;
an empty access key id is reported on `"accessKeyId"` when bucket and
secret are non-empty. -/
theorem empty_field_validation_errors
    (probe : S3Doc → Except String Unit) (doc : S3Doc) :
    (doc.bucket = "" →
      validateInfo probe doc =
        .error (.validationException "Bucket must not be empty." "bucket")) ∧
    (doc.bucket ≠ "" → doc.secret = "" →
      validateInfo probe doc =
        .error (.validationException "Secret key must not be empty." "secretKey")) ∧
    (doc.bucket ≠ "" → doc.secret ≠ "" → doc.accessKeyId = "" →
      validateInfo probe doc =
        .error (.validationException "Access key ID must not be empty."
          "accessKeyId")) := by
  refine ⟨fun h1 => ?_, fun h1 h2 => ?_, fun h1 h2 h3 => ?_⟩ <;>
    simp only [validateInfo] <;>
    rw [show (normalizeDoc doc).bucket = doc.bucket from rfl,
        show (normalizeDoc doc).secret = doc.secret from rfl,
        show (normalizeDoc doc).accessKeyId = doc.accessKeyId from rfl]
  · rw [if_pos h1]
  · rw [if_neg h1, if_pos h2]
  · rw [if_neg h1, if_neg h2, if_pos h3]

theorem empty_field_validation_errors_witness :
    validateInfo probeOk ⟨none, "", "s", "a"⟩ =
      .error (.validationException "Bucket must not be empty." "bucket") ∧
    validateInfo probeOk ⟨none, "b", "", "a"⟩ =
      .error (.validationException "Secret key must not be empty." "secretKey") ∧
    validateInfo probeOk ⟨none, "b", "s", ""⟩ =
      .error (.validationException "Access key ID must not be empty."
        "accessKeyId") :=
  ⟨(empty_field_validation_errors probeOk ⟨none, "", "s", "a"⟩).1 (by decide),
   (empty_field_validation_errors probeOk ⟨none, "b", "", "a"⟩).2.1
     (by decide) (by decide),
   (empty_field_validation_errors probeOk ⟨none, "b", "s", ""⟩).2.2
     (by decide) (by decide) (by decide)⟩

/-- C5 counterexample: on a document whose bucket AND secret key are
both empty, validation reports field `"bucket"`, not `"secretKey"` —
so "fails with field secretKey when the secret key is empty,
independent of the validity of the other fields" is false. -/
theorem empty_secret_reported_as_bucket :
    errField (validateInfo probeOk ⟨none, "", "", ""⟩) = some "bucket" ∧
      some "bucket" ≠ some "secretKey" := by
  exact ⟨rfl, by decide⟩

/-- C6: every accepted config comes back with a keyPrefix free of
leading and trailing separators, and re-validating the accepted config
returns it unchanged. -/
theorem validate_noSep_and_idempotent
    (probe : S3Doc → Except String Unit) (doc d : S3Doc)
    (h : validateInfo probe doc = .ok d) :
    noSep (d.keyPrefix.getD "") ∧ validateInfo probe d = .ok d := by
  obtain ⟨hd, h1, h2, h3, hp⟩ := validateInfo_ok_inv h
  subst hd
  refine ⟨?_, ?_⟩
  · show noSep ((normalizeDoc doc).keyPrefix.getD "")
    simpa [normalizeDoc] using noSep_stripSlashes (doc.keyPrefix.getD "")
  · simp only [validateInfo]
    rw [normalizeDoc_idem, if_neg h1, if_neg h2, if_neg h3, hp]

theorem validate_noSep_and_idempotent_witness :
    noSep (docWitNorm.keyPrefix.getD "") ∧
      validateInfo probeOk docWitNorm = .ok docWitNorm := by
  exact validate_noSep_and_idempotent probeOk docWit docWitNorm (by rfl)

/-! ### Claim theorems: `initUpload` -/

/-- A small (single-shot) upload request. -/
def upSmall : Upload :=
  { size := 100, mimeType := "text/plain", name := "f.txt",
    behavior := none, s3 := none }

/-- A large (chunked) upload request. -/
def upBig : Upload :=
  { size := 100000000, mimeType := "text/plain", name := "f.txt",
    behavior := none, s3 := none }

/-- An upload whose declared size is exactly `CHUNK_LEN` (64 MiB). -/
def upAtThreshold : Upload :=
  { size := 67108864, mimeType := "text/plain", name := "f.txt",
    behavior := none, s3 := none }

/-- A concrete `uuid.uuid4()` result used as a failing input. -/
def uuidWit : PyUUID := { hex := "0123456789abcdef0123456789abcdef" }

/-- C1 (code bug): no signed descriptor is ever issued, so no
Authorization header exists to compare with the HMAC formula: every
call of `initUpload` raises `TypeError` at line 89 — the fresh
`uuid.UUID` object is not subscriptable — before anything is signed. -/
theorem initUpload_always_raises
    (store : S3Doc) (u : Upload) (uid : PyUUID) (now : Nat) :
    initUpload store u uid now =
      .error (.typeError "'UUID' object is not subscriptable") :=
  rfl

/-- C2 (code bug): no size ever yields a descriptor: below, at, and
above the 64 MiB threshold alike, initiation raises `TypeError` before
the chunk decision of line 95 is reached, so neither the claimed PUT
descriptor nor the claimed POST multipart-initiate descriptor is
produced. -/
theorem no_descriptor_at_any_size :
    initUpload docWitNorm upSmall uuidWit 0 =
      .error (.typeError "'UUID' object is not subscriptable") ∧
    initUpload docWitNorm upAtThreshold uuidWit 0 =
      .error (.typeError "'UUID' object is not subscriptable") ∧
    initUpload docWitNorm upBig uuidWit 0 =
      .error (.typeError "'UUID' object is not subscriptable") :=
  ⟨rfl, rfl, rfl⟩

/-- C3 (code bug): no object key of any form is ever generated: the
slice `uid[0:2]` on the `uuid.UUID` object raises `TypeError`, and so
does the whole key expression of line 89 built from it. -/
theorem objectKey_never_produces_key (uid : PyUUID) :
    PyUUID.slice uid 0 2 =
      .error (.typeError "'UUID' object is not subscriptable") ∧
    objectKey uid =
      .error (.typeError "'UUID' object is not subscriptable") :=
  ⟨rfl, rfl⟩

/-- C7 (code bug): no Date header is ever issued — `initUpload` fails
before line 96 even computes `expires` — and independently the
canonical message that would carry the expiry cannot be built for any
expiry value: the raw integer in its tuple makes the join raise. -/
theorem no_date_header_issued (store : S3Doc) (u : Upload)
    (uid : PyUUID) (now : Nat) :
    (initUpload store u uid now).toOption = none ∧
    canonicalMessage "PUT" u.mimeType (now + HMAC_TTL) signedHeaderBlock
        ("/" ++ store.bucket ++ "/k") =
      .error (.typeError "sequence item 3: expected string, int found") :=
  ⟨rfl, rfl⟩

/-- C8: `requestOffset` unconditionally fails with the adapter's
unsupported-operation exception (the source raises
`Exception('S3 assetstore does not support requestOffset.')`); it never
returns an offset. -/
theorem requestOffset_unsupported (u : Upload) :
    requestOffset u =
      .error (.exception "S3 assetstore does not support requestOffset.") :=
  rfl

/-- C10 (code bug): `initUpload` never returns an upload record at
all: every call fails before the writes to `behavior` and `s3` at
lines 98-102 are reached, so nothing is set and nothing — changed or
unchanged — is returned to the caller. -/
theorem initUpload_never_returns (store : S3Doc) (u : Upload)
    (uid : PyUUID) (now : Nat) :
    (initUpload store u uid now).isOk = false :=
  rfl

/-- C9 (code bug): the signing construction computes no signature for
any inputs, equal or different: `'\n'.join(msg)` raises `TypeError` on
the raw integer expiry (sequence item 3) whatever the method, content
type, expiry and resource path are, so no canonical message — and
hence no signature — ever exists. -/
theorem canonicalMessage_always_raises
    (method contentType : String) (expires : Nat)
    (headerBlock resource : String) :
    canonicalMessage method contentType expires headerBlock resource =
      .error (.typeError "sequence item 3: expected string, int found") :=
  rfl
